import Mathlib

/-!
Shallow embedding of the connect-js repository (src/lib/core/connect.ts and
src/lib/viz/chart/chart.ts) together with proofs of the specification claims.

JavaScript dynamic values are modelled by small inductive types; `undefined`
returns are modelled with `Option`; truthiness of strings ("" is falsy) is
modelled explicitly where the source relies on it.
-/

namespace ConnectJs

/-! ## Core: src/lib/core/connect.ts -/

/-- Dynamic JavaScript values as they appear at the `Connect.push` boundary:
strings, arrays, plain objects (association lists of fields), numbers and
`undefined` (the optional second argument). -/
inductive PVal where
  | str (s : String)
  | arr (elems : List PVal)
  | obj (fields : List (String × PVal))
  | num (n : Int)
  | undef

/-- `_.isArray` on our value model. -/
def pIsArray : PVal → Bool
  | .arr _ => true
  | _ => false

/-- `_.isString` on our value model. -/
def pIsString : PVal → Bool
  | .str _ => true
  | _ => false

/-- The observable effect of `Connect.push`: either a call to the client's
`pushBatch` with a batch value, or a call to the client's single-event `push`
with the two original arguments (connect.ts lines 25-27). -/
inductive PushCall where
  | pushBatch (batch : PVal)
  | push (collectionNameOrBatches : PVal) (eventOrEvents : PVal)

/-- connect.ts lines 46-51: `_buildBatchFromArray` builds an object with the
collection name as its single key, mapped to the events value. -/
def buildBatchFromArray (collection : String) (events : PVal) : PVal :=
  .obj [(collection, events)]

/-- connect.ts lines 17-28: `Connect.push`. `isBatch` holds when the first
argument is not a string or the second is an array; a batch is built from the
pair only when the first argument is a collection name. -/
def Connect.push (collectionNameOrBatches : PVal) (eventOrEvents : PVal) : PushCall :=
  let hasMultipleEvents := pIsArray eventOrEvents
  let hasCollectionName := pIsString collectionNameOrBatches
  let isBatch := !hasCollectionName || hasMultipleEvents
  let batch := if isBatch && hasCollectionName then
      match collectionNameOrBatches with
      | .str s => buildBatchFromArray s eventOrEvents
      | v => v
    else collectionNameOrBatches
  if isBatch then .pushBatch batch
  else .push collectionNameOrBatches eventOrEvents

/-- JavaScript `a || b` for an optionally-present string field: `undefined`
and the empty string are falsy. -/
def jsOrStr (a : Option String) (b : String) : String :=
  match a with
  | some s => if s = "" then b else s
  | none => b

/-- connect.ts lines 34-40: `getConfig` builds a fresh object with exactly the
fields `baseUrl` (defaulted through `||`), `projectId` and `apiKey`. The input
is an arbitrary object (association list of string fields); an output field
holding `none` models a field whose value is `undefined`. -/
def getConfig (config : List (String × String)) : List (String × Option String) :=
  [("baseUrl", some (jsOrStr (config.lookup "baseUrl") "https://api.getconnect.io")),
   ("projectId", config.lookup "projectId"),
   ("apiKey", config.lookup "apiKey")]

end ConnectJs

namespace ConnectJs

/-! ## Viz: src/lib/viz/chart/chart.ts

The chart controller is modelled as a pure state-passing translation of the
`Chart` class. Values flowing through formatters are modelled as strings
(JavaScript is untyped; only identity of the installed functions matters to
the claims). Collaborator modules that are not part of src/ (the dataset
builder, `Formatters.formatDate`, `Palette.getSwatch`, the DOM helpers and
the result handler) are modelled from the spec, as noted on each definition.
-/

/-- Context of a data point, looked up from the current dataset for
formatting and coloring. Modelled from the spec, section 3 (Context Index):
`{select, groupByName?, groupValue?}`. -/
structure Context where
  select : String
  groupByName : Option String
  groupValue : Option String

/-- A single engine datum value (one point of one series). Its fields are
opaque to the controller; only its identity matters for context lookups. -/
structure DatumValue where
  id : String
  value : Int
  index : Nat

/-- A datum handed to the color callback by the engine: chart.ts line 166
tests `_.isArray(datum.values)`, so a datum either is a scalar point or
carries an array of values (stacked points). -/
inductive Datum where
  | point (d : DatumValue)
  | stacked (values : List DatumValue)

/-- The contexts value passed to the `colorModifier` hook: a single context
for a scalar point (chart.ts line 169) or the list of per-value contexts for
a stacked datum (line 167; individual lookups may yield no context). -/
inductive Contexts where
  | single (c : Context)
  | many (cs : List (Option Context))

/-- One chart-engine row emitted by the dataset builder; `_x` is the bucket
or category value, the remaining fields are series values. -/
structure ChartRow where
  _x : String
  values : List (String × Int)

/-- Modelled from the spec, section 4.1: the Dataset Builder's product
(`Dataset.ChartDataset` lives outside src/). It exposes `getData()`,
`getLabels()`, `getSelect(label)` and `getContext(point)`; here the first
two are fields `data` and `labels` and the lookups are function fields. -/
structure ChartDataset where
  data : List ChartRow
  labels : List String
  getContext : DatumValue → Option Context
  getSelect : String → Option String

/-- The formatter pair injected into the dataset builder by
`Chart._buildDataset` (chart.ts lines 129-132). -/
structure DatasetFormatters where
  selectLabelFormatter : String → String
  groupValueFormatter : String → String → String

/-- Per-field options (`fields[name].label` / `.valueFormatter`). -/
structure FieldOption where
  label : Option String
  valueFormatter : Option (String → String)

/-- Modelled from the spec, section 4.2: `Config.defaulField` (config.ts is
outside src/), the fallback used when no per-field option exists; it carries
no label and no value formatter, so lookups fall through to the raw value. -/
def defaulField : FieldOption :=
  { label := Option.none, valueFormatter := Option.none }

/-- `chart.yAxis` options. -/
structure YAxisOptions where
  valueFormatter : String → String
  startAtZero : Option Bool

/-- `intervals` options: the granularity → date-format table and the
optional custom interval formatter. -/
structure IntervalOptions where
  formats : List (String × String)
  valueFormatter : Option (String → String)

/-- `chart` section of the visualization options. -/
structure ChartSection where
  type : String
  height : Option Nat
  width : Option Nat
  showLegend : Option Bool
  colors : Option (List String)
  colorModifier : String → Contexts → String
  yAxis : YAxisOptions

/-- The normalized per-instance options (`Config.VisualizationOptions`) as
read by the chart controller after `_parseOptions`. The generic deep-merge
that produces it is modelled separately below for claim C6. -/
structure VisualizationOptions where
  title : Option String
  timezone : Option String
  transitionOnReload : Bool
  intervals : IntervalOptions
  fields : List (String × FieldOption)
  chart : ChartSection

/-- Query metadata as read by the controller. -/
structure QueryMetadata where
  groups : List String
  interval : Option String
  timezone : Option String

/-- `Api.QueryResults` as read by the controller: `metadata` and the
`selects()` accessor (modelled as a field; api.ts is outside src/). The raw
`results` rows are consumed only by the dataset builder, which is abstract
here, so they are not carried separately. -/
structure QueryResults where
  metadata : QueryMetadata
  selects : List String

/-- Modelled from the spec, section 4.5: `Palette.getSwatch` returns the
explicit palette override when supplied, else a fixed default palette
(palette.ts is outside src/; the engine cycles the swatch by series index). -/
def defaultSwatch : List String :=
  ["#4DB5D9", "#A2B86C", "#DB3A1B", "#EBC844", "#8A2EB3"]

/-- Modelled from the spec, section 4.5 (see `defaultSwatch`). -/
def getSwatch (colors : Option (List String)) : List String :=
  match colors with
  | some cs => cs
  | none => defaultSwatch

/-- Modelled from the spec, section 4.4: `Formatters.formatDate(value,
timezone, pattern)` (formatters.ts is outside src/) converts a raw bucket
value into a display string honoring the timezone and pattern; it is kept
symbolic but injective in its inputs. -/
def formatDate (value : String) (timezone : Option String) (format : Option String) : String :=
  value ++ "@" ++ timezone.getD "" ++ "#" ++ format.getD ""

/-- JavaScript `a || b` where both sides are optionally-present strings
(`options.timezone || metadata.timezone`, chart.ts line 93). -/
def jsOrOpt (a b : Option String) : Option String :=
  match a with
  | some s => if s = "" then b else some s
  | none => b

/-- The tracked slice of the engine's `internal.config` that chart.ts reads
and writes (`internalChartConfig.*` in `_loadData`, and the corresponding
keys of the `c3.generate` configuration built in `_renderChart`). -/
structure EngineConfig where
  transition_duration : Option Nat
  legend_show : Option Bool
  axis_x_type : String
  axis_x_tick_format : Option (String → String)
  axis_x_categories : Option (List String)
  axis_y_tick_format : String → String
  zerobased : Option Bool
  size_height : Option Nat
  size_width : Option Nat

/-- The engine instance (`C3.Chart`): its mutable internal config, the ids of
the series it currently holds (`this._chart.data()`), and the configured
color pattern (the palette swatch). -/
structure EngineState where
  config : EngineConfig
  dataSeries : List String
  pattern : List String

/-- The `Chart` instance state: parsed options, the `_rendered` flag
(initially falsy), the engine (`_chart`, absent until rendered), the current
dataset (`_currentDataset`, absent until the first load) and whether the DOM
scaffold created by `_renderChart` is attached. -/
structure Chart where
  options : VisualizationOptions
  rendered : Bool
  chartEngine : Option EngineState
  currentDataset : Option ChartDataset
  dom : Bool

/-- chart.ts lines 29-38: the constructor parses options (modelled separately
for C6), stores the target element and leaves `_rendered`/`_chart`/
`_currentDataset` unset (falsy). -/
def Chart.create (options : VisualizationOptions) : Chart :=
  { options := options, rendered := false, chartEngine := Option.none,
    currentDataset := Option.none, dom := false }

/-- chart.ts lines 33-36: `this._transitionDuration = { none: null, some: 300 }`,
set once in the constructor and never mutated. -/
def transitionDurationNone : Option Nat := Option.none

/-- See `transitionDurationNone`; the `some` entry of the constructor table. -/
def transitionDurationSome : Option Nat := Option.some 300

/-- chart.ts lines 72-79: `getDefaultLegendVisibility` — more than one select,
or grouped and interval-bucketed (`metadata.interval != null`). -/
def getDefaultLegendVisibility (results : QueryResults) : Bool :=
  let metadata := results.metadata
  let selects := results.selects
  let hasMultipleSelects := selects.length > 1
  let isGroupedInterval := metadata.groups.length > 0 && metadata.interval.isSome
  hasMultipleSelects || isGroupedInterval

/-- Lookup of `options.fields[name] || Config.defaulField` (chart.ts lines
130, 141, 152). -/
def fieldFor (options : VisualizationOptions) (name : String) : FieldOption :=
  (options.fields.lookup name).getD defaulField

/-- chart.ts lines 151-160: `_formatGroupValue`. -/
def Chart.formatGroupValue (c : Chart) (groupByName : String) (groupValue : String) : String :=
  let fieldOption := fieldFor c.options groupByName
  match fieldOption.valueFormatter with
  | some valueFormatter => valueFormatter groupValue
  | none => groupValue

/-- chart.ts lines 127-135: `_buildDataset` constructs the dataset from the
results and the injected formatters; the builder itself (`Dataset.ChartDataset`)
is outside src/ and is passed in abstractly as `mk`. -/
def Chart.buildDataset (mk : QueryResults → DatasetFormatters → ChartDataset)
    (c : Chart) (results : QueryResults) : ChartDataset :=
  mk results
    { selectLabelFormatter := fun select => jsOrStr (fieldFor c.options select).label select,
      groupValueFormatter := fun groupByName groupValue =>
        c.formatGroupValue groupByName groupValue }

/-- Context lookup `this._currentDataset.getContext(v)` (chart.ts lines 167,
169). The engine only invokes the color callback on loaded data, after
`_loadData` has set `_currentDataset`; before that the lookup yields nothing. -/
def Chart.datasetContext (c : Chart) (dv : DatumValue) : Option Context :=
  match c.currentDataset with
  | some ds => ds.getContext dv
  | none => Option.none

/-- chart.ts lines 162-175: `_modifyColor`. For a stacked datum the contexts
are the mapped per-value lookups (an array, always truthy); for a scalar
point the single looked-up context, which may be absent. When contexts are
truthy the result is `colorModifier(currentColor, contexts)`; otherwise the
source's `currentColor;` statement has no `return`, so the function yields
`undefined`, modelled as `none`. -/
def Chart.modifyColor (c : Chart) (currentColor : String) (datum : Datum) : Option String :=
  let colorModifier := c.options.chart.colorModifier
  let contexts : Option Contexts :=
    match datum with
    | .stacked values => some (.many (values.map (fun datumValue => c.datasetContext datumValue)))
    | .point d => (c.datasetContext d).map .single
  match contexts with
  | some ctxs => some (colorModifier currentColor ctxs)
  | none => Option.none

/-- The closure installed as the engine's `data.color` callback at render
time: `(color, datum) => this._modifyColor(color, datum)` (chart.ts lines
199-201). It late-binds `this`, so it always consults the current state. -/
def Chart.colorCallback (c : Chart) (color : String) (datum : Datum) : Option String :=
  c.modifyColor color datum

/-- The engine instance created by `c3.generate(config)` from the
configuration literal of `_renderChart` (chart.ts lines 190-249): empty
dataset, categorical x axis with no tick format, y tick format from the
options, disabled transitions, the palette swatch as color pattern, and the
zero-based flag only when `startAtZero` was specified. The engine-side
defaults merged underneath (`Config.defaultC3ChartOptions`, outside src/)
cannot affect these keys because the literal sets each of them explicitly. -/
def initialEngine (options : VisualizationOptions) : EngineState :=
  let yAxisOptions := options.chart.yAxis
  let isStartAtZeroSpecified := yAxisOptions.startAtZero.isSome
  { config :=
      { transition_duration := transitionDurationNone,
        legend_show := Option.none,
        axis_x_type := "category",
        axis_x_tick_format := Option.none,
        axis_x_categories := Option.none,
        axis_y_tick_format := yAxisOptions.valueFormatter,
        zerobased := if isStartAtZeroSpecified then yAxisOptions.startAtZero else Option.none,
        size_height := options.chart.height,
        size_width := options.chart.width },
    dataSeries := [],
    pattern := getSwatch options.chart.colors }

/-- chart.ts lines 177-251: `_renderChart`. If `_rendered` is already set it
returns immediately; otherwise it creates the DOM scaffold, marks the chart
rendered, generates the engine instance and installs the DOM destroyer. -/
def Chart.renderChart (c : Chart) : Chart :=
  if c.rendered then c
  else
    { c with rendered := true, dom := true,
             chartEngine := some (initialEngine c.options) }

/-- chart.ts lines 81-120: `_loadData`. Reads the dataset from the builder,
resolves the timezone (`options.timezone || metadata.timezone`), computes the
transition duration and legend visibility, writes them into the engine's
internal config, then dispatches on the truthiness of `metadata.interval`:
a truthy interval installs the time axis and tick formatter (custom formatter
winning over the standard one), otherwise only the category list is set.
Finally the dataset becomes current and the engine loads the rows keyed by
`_x` and the labels. The engine keeps previously loaded series ids. -/
def Chart.loadData (mk : QueryResults → DatasetFormatters → ChartDataset)
    (c : Chart) (results : QueryResults) (reRender : Bool) : Chart :=
  match c.chartEngine with
  | none => c
  | some engine =>
    let options := c.options
    let dataset := Chart.buildDataset mk c results
    let data := dataset.data
    let keys := dataset.labels
    let metadata := results.metadata
    let timezone := jsOrOpt options.timezone metadata.timezone
    let useTransition := decide (engine.dataSeries.length ≠ 0)
        && (options.transitionOnReload || !reRender)
    let transitionDuration := if useTransition then transitionDurationSome
        else transitionDurationNone
    let showLegend := match options.chart.showLegend with
      | some b => b
      | none => getDefaultLegendVisibility results
    let config1 := { engine.config with
        transition_duration := transitionDuration,
        legend_show := some showLegend }
    let config2 := match metadata.interval with
      | some interval =>
        if interval = "" then
          { config1 with axis_x_categories := some (data.map ChartRow._x) }
        else
          let dateFormat := options.intervals.formats.lookup interval
          let standardDateformatter := fun value => formatDate value timezone dateFormat
          let customDateFormatter := options.intervals.valueFormatter
          { config1 with
              axis_x_tick_format := some (customDateFormatter.getD standardDateformatter),
              axis_x_type := "timeseries" }
      | none => { config1 with axis_x_categories := some (data.map ChartRow._x) }
    { c with
        currentDataset := some dataset,
        chartEngine := some { engine with
          config := config2,
          dataSeries := engine.dataSeries
            ++ keys.filter (fun k => !engine.dataSeries.contains k) } }

/-- chart.ts lines 63-66: `displayData` renders (idempotently) and hands the
result to the result handler, which — modelled from the spec, section 4.6 —
invokes `_loadData` on the successfully resolved results. -/
def Chart.displayData (mk : QueryResults → DatasetFormatters → ChartDataset)
    (c : Chart) (results : QueryResults) (reRender : Bool) : Chart :=
  Chart.loadData mk (Chart.renderChart c) results reRender

/-- chart.ts lines 122-125: `destroy` clears `_rendered` and runs the DOM
destroyer, which — modelled from the spec, section 4.3 — removes the scaffold
and tears down the engine instance. -/
def Chart.destroy (c : Chart) : Chart :=
  { c with rendered := false, dom := false, chartEngine := Option.none }

/-- JavaScript truthiness of an optionally-present string (`metadata.interval`
in `if(metadata.interval)`, chart.ts line 102): absent and empty are falsy. -/
def jsTruthy : Option String → Bool
  | some s => s != ""
  | none => false

/-- Projection: the engine's `transition_duration`, when an engine exists. -/
def Chart.engineTransition (c : Chart) : Option (Option Nat) :=
  c.chartEngine.map (fun e => e.config.transition_duration)

/-- Projection: the engine's `legend_show`, when an engine exists. -/
def Chart.engineLegend (c : Chart) : Option (Option Bool) :=
  c.chartEngine.map (fun e => e.config.legend_show)

/-- Projection: the engine's `axis_x_type`, when an engine exists. -/
def Chart.engineAxisType (c : Chart) : Option String :=
  c.chartEngine.map (fun e => e.config.axis_x_type)

/-- Projection: the engine's `axis_x_tick_format`, when an engine exists. -/
def Chart.engineTickFormat (c : Chart) : Option (Option (String → String)) :=
  c.chartEngine.map (fun e => e.config.axis_x_tick_format)

/-- Projection: the engine's `axis_x_categories`, when an engine exists. -/
def Chart.engineCategories (c : Chart) : Option (Option (List String)) :=
  c.chartEngine.map (fun e => e.config.axis_x_categories)

/-- Projection: the ids of the series the engine holds, when an engine exists. -/
def Chart.engineSeries (c : Chart) : Option (List String) :=
  c.chartEngine.map (fun e => e.dataSeries)

/-- Projection: the engine's configured color pattern, when an engine exists. -/
def Chart.enginePattern (c : Chart) : Option (List String) :=
  c.chartEngine.map (fun e => e.pattern)

/-- Combined description of the engine configuration written by one
`_loadData` call (chart.ts lines 81-120), covering the transition duration,
the legend flag, both branches of the interval dispatch, and the series the
engine holds afterwards. -/
theorem loadData_effects (mk : QueryResults → DatasetFormatters → ChartDataset)
    (c : Chart) (results : QueryResults) (reRender : Bool) (e : EngineState)
    (h : c.chartEngine = some e) :
    ((Chart.loadData mk c results reRender).engineTransition
        = some (if decide (e.dataSeries.length ≠ 0) && (c.options.transitionOnReload || !reRender)
                then transitionDurationSome else transitionDurationNone))
    ∧ ((Chart.loadData mk c results reRender).engineLegend
        = some (some (match c.options.chart.showLegend with
                      | some b => b
                      | none => getDefaultLegendVisibility results)))
    ∧ (∀ interval, results.metadata.interval = some interval → interval ≠ "" →
        (Chart.loadData mk c results reRender).engineAxisType = some "timeseries"
        ∧ (Chart.loadData mk c results reRender).engineTickFormat
            = some (some ((c.options.intervals.valueFormatter).getD
                (fun value => formatDate value (jsOrOpt c.options.timezone results.metadata.timezone)
                  (c.options.intervals.formats.lookup interval))))
        ∧ (Chart.loadData mk c results reRender).engineCategories
            = some e.config.axis_x_categories)
    ∧ (jsTruthy results.metadata.interval = false →
        (Chart.loadData mk c results reRender).engineCategories
            = some (some ((Chart.buildDataset mk c results).data.map ChartRow._x))
        ∧ (Chart.loadData mk c results reRender).engineAxisType = some e.config.axis_x_type
        ∧ (Chart.loadData mk c results reRender).engineTickFormat
            = some e.config.axis_x_tick_format)
    ∧ ((Chart.loadData mk c results reRender).engineSeries
        = some (e.dataSeries ++ (Chart.buildDataset mk c results).labels.filter
            (fun k => !e.dataSeries.contains k))) := by
  rcases hi : results.metadata.interval with _ | interval
  · refine ⟨?_, ?_, ?_, ?_, ?_⟩
    · simp [Chart.loadData, h, hi, Chart.engineTransition]
    · simp [Chart.loadData, h, hi, Chart.engineLegend]
    · intro interval hsome
      exact absurd hsome (by simp)
    · intro _
      refine ⟨?_, ?_, ?_⟩
      · simp [Chart.loadData, h, hi, Chart.engineCategories]
      · simp [Chart.loadData, h, hi, Chart.engineAxisType]
      · simp [Chart.loadData, h, hi, Chart.engineTickFormat]
    · simp [Chart.loadData, h, hi, Chart.engineSeries]
  · by_cases hempty : interval = ""
    · refine ⟨?_, ?_, ?_, ?_, ?_⟩
      · simp [Chart.loadData, h, hi, hempty, Chart.engineTransition]
      · simp [Chart.loadData, h, hi, hempty, Chart.engineLegend]
      · intro interval2 hsome hne
        injection hsome with hsome
        exact absurd (hsome ▸ hempty) hne
      · intro _
        refine ⟨?_, ?_, ?_⟩
        · simp [Chart.loadData, h, hi, hempty, Chart.engineCategories]
        · simp [Chart.loadData, h, hi, hempty, Chart.engineAxisType]
        · simp [Chart.loadData, h, hi, hempty, Chart.engineTickFormat]
      · simp [Chart.loadData, h, hi, hempty, Chart.engineSeries]
    · refine ⟨?_, ?_, ?_, ?_, ?_⟩
      · simp [Chart.loadData, h, hi, hempty, Chart.engineTransition]
      · simp [Chart.loadData, h, hi, hempty, Chart.engineLegend]
      · intro interval2 hsome hne
        injection hsome with hsome
        subst hsome
        refine ⟨?_, ?_, ?_⟩
        · simp [Chart.loadData, h, hi, hempty, Chart.engineAxisType]
        · simp [Chart.loadData, h, hi, hempty, Chart.engineTickFormat]
        · simp [Chart.loadData, h, hi, hempty, Chart.engineCategories]
      · intro htru
        simp [jsTruthy] at htru
        exact absurd htru hempty
      · simp [Chart.loadData, h, hi, hempty, Chart.engineSeries]

/-! ## Concrete fixtures for witnesses and counterexamples -/

/-- A fixed dataset builder standing in for `Dataset.ChartDataset`. -/
def mkFixed : QueryResults → DatasetFormatters → ChartDataset :=
  fun _ _ =>
    { data := [{ _x := "2015-07-01", values := [("sellPriceTotal", 10)] }],
      labels := ["sellPriceTotal"],
      getContext := fun _ => Option.none,
      getSelect := fun _ => Option.none }

/-- Sample y-axis options: identity formatter, no zero-based override. -/
def sampleYAxis : YAxisOptions :=
  { valueFormatter := fun v => v, startAtZero := Option.none }

/-- Sample `chart` options matching the parse defaults. -/
def sampleChartSection : ChartSection :=
  { type := "bar", height := Option.none, width := Option.none,
    showLegend := Option.none, colors := Option.none,
    colorModifier := fun currentColor _ => currentColor,
    yAxis := sampleYAxis }

/-- Sample resolved visualization options matching the parse defaults. -/
def sampleOptions : VisualizationOptions :=
  { title := Option.none, timezone := Option.none, transitionOnReload := true,
    intervals := { formats := [("minute", "HH:mm")], valueFormatter := Option.none },
    fields := [], chart := sampleChartSection }

/-- Query results with two selects, no groups and no interval. -/
def resCat : QueryResults :=
  { metadata := { groups := [], interval := Option.none, timezone := Option.none },
    selects := ["sellPriceTotal", "costPriceTotal"] }

/-- Query results with one select and a minute interval. -/
def resTs : QueryResults :=
  { metadata := { groups := [], interval := some "minute", timezone := some "UTC" },
    selects := ["sellPriceTotal"] }

/-- A chart whose engine is fresh (renders nothing yet, empty dataset). -/
def chartEmptyEngine : Chart :=
  { Chart.create sampleOptions with chartEngine := some (initialEngine sampleOptions) }

/-- A chart whose engine already holds one series. -/
def chartLoadedEngine : Chart :=
  { Chart.create sampleOptions with
      chartEngine := some { initialEngine sampleOptions with dataSeries := ["sellPriceTotal"] } }

/-! ## Claims about the chart controller -/

/-- C7: the render step runs at most once — rendering twice equals rendering
once, a render call on an already-rendered chart is a no-op, and the first
render marks the chart rendered, attaches the DOM scaffold and creates the
engine instance with an empty dataset. -/
theorem renderChart_once (c : Chart) :
    (Chart.renderChart (Chart.renderChart c) = Chart.renderChart c)
    ∧ (Chart.renderChart { c with rendered := true } = { c with rendered := true })
    ∧ ((Chart.renderChart { c with rendered := false }).rendered = true
       ∧ (Chart.renderChart { c with rendered := false }).dom = true
       ∧ (Chart.renderChart { c with rendered := false }).chartEngine
            = some (initialEngine c.options)
       ∧ (initialEngine c.options).dataSeries = []) := by
  refine ⟨?_, ?_, ?_, ?_, ?_, ?_⟩
  · cases hc : c.rendered <;> simp [Chart.renderChart, hc]
  · simp [Chart.renderChart]
  · simp [Chart.renderChart]
  · simp [Chart.renderChart]
  · simp [Chart.renderChart]
  · simp [initialEngine]

/-- C2: in `_modifyColor`, a scalar datum whose context lookup yields nothing
makes the function return no value (`undefined`, not the current color);
a scalar datum with a context and any stacked datum yield
`colorModifier(currentColor, contexts)`. -/
theorem modifyColor_branches (c : Chart) (color : String) :
    (∀ d, c.datasetContext d = Option.none →
        c.modifyColor color (.point d) = Option.none)
    ∧ (∀ d ctx, c.datasetContext d = some ctx →
        c.modifyColor color (.point d)
          = some (c.options.chart.colorModifier color (.single ctx)))
    ∧ (∀ vs, c.modifyColor color (.stacked vs)
        = some (c.options.chart.colorModifier color
            (.many (vs.map (fun dv => c.datasetContext dv))))) := by
  refine ⟨?_, ?_, ?_⟩
  · intro d hd
    simp [Chart.modifyColor, hd]
  · intro d ctx hd
    simp [Chart.modifyColor, hd]
  · intro vs
    simp [Chart.modifyColor]

/-- Context value used by the witness fixtures. -/
def ctxS1 : Context :=
  { select := "sellPriceTotal", groupByName := Option.none, groupValue := Option.none }

/-- Dataset whose context lookup succeeds exactly for the datum with id `a`. -/
def datasetWithCtx : ChartDataset :=
  { data := [], labels := [],
    getContext := fun dv => if dv.id = "a" then some ctxS1 else Option.none,
    getSelect := fun _ => Option.none }

/-- Options whose color modifier labels the shape of the contexts it gets. -/
def modOptions : VisualizationOptions :=
  { sampleOptions with
      chart := { sampleChartSection with
        colorModifier := fun _ ctxs =>
          match ctxs with
          | .single _ => "mod-single"
          | .many _ => "mod-many" } }

/-- A chart holding `datasetWithCtx` as its current dataset. -/
def chartWithCtx : Chart :=
  { Chart.create modOptions with currentDataset := some datasetWithCtx }

/-- Witness for C2: on a concrete chart, the no-context scalar point returns
no value, the in-context scalar point and the stacked datum invoke the
modifier. -/
theorem modifyColor_branches_witness :
    (chartWithCtx.modifyColor "red" (.point { id := "b", value := 0, index := 0 })
        = Option.none)
    ∧ (chartWithCtx.modifyColor "red" (.point { id := "a", value := 0, index := 0 })
        = some "mod-single")
    ∧ (chartWithCtx.modifyColor "red" (.stacked [{ id := "a", value := 0, index := 0 }])
        = some "mod-many") :=
  ⟨(modifyColor_branches chartWithCtx "red").1 { id := "b", value := 0, index := 0 } rfl,
   (modifyColor_branches chartWithCtx "red").2.1 { id := "a", value := 0, index := 0 } ctxS1 rfl,
   (modifyColor_branches chartWithCtx "red").2.2 [{ id := "a", value := 0, index := 0 }]⟩

/-- C3: a data load animates (transition duration 300) exactly when the
engine already holds prior data and (`transitionOnReload` is true or the
`reRender` flag is false); an empty engine never animates, and in particular
the very first load through `displayData` on a fresh chart never animates. -/
theorem loadData_transition_rule (mk : QueryResults → DatasetFormatters → ChartDataset)
    (c : Chart) (results : QueryResults) (reRender : Bool) (e : EngineState)
    (opts : VisualizationOptions) (h : c.chartEngine = some e) :
    ((Chart.loadData mk c results reRender).engineTransition = some (some 300)
      ↔ (e.dataSeries.length ≠ 0
          ∧ (c.options.transitionOnReload = true ∨ reRender = false)))
    ∧ (e.dataSeries = [] →
        (Chart.loadData mk c results reRender).engineTransition = some Option.none)
    ∧ ((Chart.displayData mk (Chart.create opts) results reRender).engineTransition
        = some Option.none) := by
  have H := (loadData_effects mk c results reRender e h).1
  refine ⟨?_, ?_, ?_⟩
  · rw [H]
    constructor
    · intro hcontra
      by_cases hu : (decide (e.dataSeries.length ≠ 0)
          && (c.options.transitionOnReload || !reRender)) = true
      · simp only [Bool.and_eq_true, Bool.or_eq_true, decide_eq_true_iff,
          Bool.not_eq_true'] at hu
        exact hu
      · rw [if_neg hu] at hcontra
        simp [transitionDurationNone] at hcontra
    · intro hp
      have hu : (decide (e.dataSeries.length ≠ 0)
          && (c.options.transitionOnReload || !reRender)) = true := by
        simp only [Bool.and_eq_true, Bool.or_eq_true, decide_eq_true_iff,
          Bool.not_eq_true']
        exact hp
      rw [if_pos hu]
      rfl
  · intro hds
    rw [H]
    simp [hds, transitionDurationNone]
  · have hcreate : (Chart.renderChart (Chart.create opts)).chartEngine
        = some (initialEngine opts) := rfl
    have H2 := (loadData_effects mk (Chart.renderChart (Chart.create opts))
        results reRender (initialEngine opts) hcreate).1
    show (Chart.loadData mk (Chart.renderChart (Chart.create opts))
        results reRender).engineTransition = some Option.none
    rw [H2]
    simp [initialEngine, transitionDurationNone]

/-- Witness for C3: the fresh chart's first load has a null transition
duration; a second load on an engine holding a series animates with 300. -/
theorem loadData_transition_rule_witness :
    ((Chart.loadData mkFixed chartLoadedEngine resCat true).engineTransition
        = some (some 300))
    ∧ ((Chart.displayData mkFixed (Chart.create sampleOptions) resCat true).engineTransition
        = some Option.none) :=
  ⟨(loadData_transition_rule mkFixed chartLoadedEngine resCat true
      { initialEngine sampleOptions with dataSeries := ["sellPriceTotal"] }
      sampleOptions rfl).1.mpr
      ⟨by decide, Or.inl (by decide)⟩,
   (loadData_transition_rule mkFixed chartLoadedEngine resCat true
      { initialEngine sampleOptions with dataSeries := ["sellPriceTotal"] }
      sampleOptions rfl).2.2⟩

/-- C4: on each load, when `chart.showLegend` is not set the legend is shown
exactly when there is more than one select or (non-empty groups and a set
interval); when `chart.showLegend` is set its value is used. -/
theorem loadData_legend_rule (mk : QueryResults → DatasetFormatters → ChartDataset)
    (c : Chart) (results : QueryResults) (reRender : Bool) (e : EngineState)
    (h : c.chartEngine = some e) :
    (c.options.chart.showLegend = Option.none →
        ((Chart.loadData mk c results reRender).engineLegend = some (some true)
          ↔ (results.selects.length > 1
              ∨ (results.metadata.groups ≠ [] ∧ results.metadata.interval ≠ Option.none))))
    ∧ (∀ b, c.options.chart.showLegend = some b →
        (Chart.loadData mk c results reRender).engineLegend = some (some b)) := by
  have H := (loadData_effects mk c results reRender e h).2.1
  constructor
  · intro hnone
    rw [H, hnone]
    simp only [Option.some.injEq]
    simp [getDefaultLegendVisibility, Bool.or_eq_true, Bool.and_eq_true,
      decide_eq_true_iff, Option.isSome_iff_ne_none, List.length_pos]
  · intro b hb
    rw [H, hb]

/-- Witness for C4: two selects with no explicit option default the legend to
shown; an explicit `showLegend := false` wins. -/
theorem loadData_legend_rule_witness :
    ((Chart.loadData mkFixed chartEmptyEngine resCat true).engineLegend
        = some (some true))
    ∧ ((Chart.loadData mkFixed
          { Chart.create { sampleOptions with
              chart := { sampleChartSection with showLegend := some false } } with
            chartEngine := some (initialEngine sampleOptions) }
          resCat true).engineLegend = some (some false)) :=
  ⟨((loadData_legend_rule mkFixed chartEmptyEngine resCat true
        (initialEngine sampleOptions) rfl).1 rfl).mpr
      (Or.inl (by decide)),
   (loadData_legend_rule mkFixed
        { Chart.create { sampleOptions with
            chart := { sampleChartSection with showLegend := some false } } with
          chartEngine := some (initialEngine sampleOptions) }
        resCat true (initialEngine sampleOptions) rfl).2 false rfl⟩

/-- C5 (amended): on each load, a truthy `metadata.interval` installs the
time axis with the custom interval formatter when supplied, else the standard
formatter built from the format table and the resolved timezone
(`options.timezone || metadata.timezone`); without a truthy interval only the
categories are set to the rows' bucket values in emitted order — the axis
type is left at its previous value (initially `category` from render), so it
is categorical only if no earlier load installed a time axis. -/
theorem loadData_axis_rule (mk : QueryResults → DatasetFormatters → ChartDataset)
    (c : Chart) (results : QueryResults) (reRender : Bool) (e : EngineState)
    (h : c.chartEngine = some e) :
    (∀ interval, results.metadata.interval = some interval → interval ≠ "" →
        (Chart.loadData mk c results reRender).engineAxisType = some "timeseries"
        ∧ (Chart.loadData mk c results reRender).engineTickFormat
            = some (some ((c.options.intervals.valueFormatter).getD
                (fun value => formatDate value
                  (jsOrOpt c.options.timezone results.metadata.timezone)
                  (c.options.intervals.formats.lookup interval)))))
    ∧ (jsTruthy results.metadata.interval = false →
        (Chart.loadData mk c results reRender).engineCategories
            = some (some ((Chart.buildDataset mk c results).data.map ChartRow._x))
        ∧ (Chart.loadData mk c results reRender).engineAxisType
            = some e.config.axis_x_type) := by
  have H := loadData_effects mk c results reRender e h
  constructor
  · intro interval hsome hne
    exact ⟨(H.2.2.1 interval hsome hne).1, (H.2.2.1 interval hsome hne).2.1⟩
  · intro hfalse
    exact ⟨(H.2.2.2.1 hfalse).1, (H.2.2.2.1 hfalse).2.1⟩

/-- Witness for C5: a minute-interval load on a fresh engine installs the
time axis; an interval-free load on a fresh engine emits the bucket values as
categories and leaves the initial `category` axis type. -/
theorem loadData_axis_rule_witness :
    ((Chart.loadData mkFixed chartEmptyEngine resTs true).engineAxisType
        = some "timeseries")
    ∧ ((Chart.loadData mkFixed chartEmptyEngine resCat true).engineCategories
        = some (some ["2015-07-01"]))
    ∧ ((Chart.loadData mkFixed chartEmptyEngine resCat true).engineAxisType
        = some "category") :=
  ⟨((loadData_axis_rule mkFixed chartEmptyEngine resTs true
        (initialEngine sampleOptions) rfl).1 "minute" rfl (by decide)).1,
   ((loadData_axis_rule mkFixed chartEmptyEngine resCat true
        (initialEngine sampleOptions) rfl).2 (by decide)).1,
   ((loadData_axis_rule mkFixed chartEmptyEngine resCat true
        (initialEngine sampleOptions) rfl).2 (by decide)).2⟩

/-- Counterexample to C5 as stated: a load whose metadata has no interval
does not get a categorical x-axis when an earlier load installed a time
axis — the second load below has `interval = none`, yet the axis type is
still `timeseries`, because the interval-free branch of `_loadData` never
writes `axis_x_type`. -/
theorem axis_type_stale_after_interval_load :
    resCat.metadata.interval = Option.none
    ∧ (Chart.displayData mkFixed
        (Chart.displayData mkFixed (Chart.create sampleOptions) resTs true)
        resCat true).engineAxisType = some "timeseries" :=
  ⟨rfl, rfl⟩

/-- C1 (amended): calling `displayData` on a destroyed chart does not fail
and does not no-op — because `destroy` resets `_rendered`, the next
`displayData` quietly re-creates the DOM scaffold and a fresh engine and
loads the data into it. -/
theorem displayData_after_destroy_recreates
    (mk : QueryResults → DatasetFormatters → ChartDataset)
    (c : Chart) (results : QueryResults) (reRender : Bool) :
    (Chart.displayData mk (Chart.destroy c) results reRender).rendered = true
    ∧ (Chart.displayData mk (Chart.destroy c) results reRender).dom = true
    ∧ (Chart.displayData mk (Chart.destroy c) results reRender).chartEngine.isSome
        = true :=
  ⟨rfl, rfl, rfl⟩

/-- A chart that has been rendered and loaded once. -/
def chartLife1 : Chart :=
  Chart.displayData mkFixed (Chart.create sampleOptions) resCat true

/-- Counterexample to C1 as stated: after `destroy()` (rendered flag cleared,
engine torn down), a concrete `displayData` call neither fails nor no-ops —
it re-creates the chart: the instance is rendered again, the DOM scaffold is
re-attached, and a fresh engine holds the newly loaded series. -/
theorem destroyed_chart_recreated_on_displayData :
    (Chart.destroy chartLife1).rendered = false
    ∧ (Chart.destroy chartLife1).chartEngine = Option.none
    ∧ (Chart.displayData mkFixed (Chart.destroy chartLife1) resCat true).rendered = true
    ∧ (Chart.displayData mkFixed (Chart.destroy chartLife1) resCat true).dom = true
    ∧ (Chart.displayData mkFixed (Chart.destroy chartLife1) resCat true).engineSeries
        = some ["sellPriceTotal"] :=
  ⟨rfl, rfl, rfl, rfl, rfl⟩

/-- C8: the engine's color pattern configured at render time is the palette
swatch (explicit colors or the default palette), and the installed color
callback applies `colorModifier` to the engine-supplied base color with the
point's resolved context — the sequence of per-value contexts for a stacked
datum, the single context for a scalar point that resolves. -/
theorem color_pipeline (c : Chart) (color : String) (vs : List DatumValue)
    (d : DatumValue) (ctx : Context) :
    ((Chart.renderChart { c with rendered := false }).enginePattern
        = some (getSwatch c.options.chart.colors))
    ∧ (Chart.colorCallback c color (.stacked vs)
        = some (c.options.chart.colorModifier color
            (.many (vs.map (fun dv => c.datasetContext dv)))))
    ∧ (c.datasetContext d = some ctx →
        Chart.colorCallback c color (.point d)
          = some (c.options.chart.colorModifier color (.single ctx))) := by
  refine ⟨?_, ?_, ?_⟩
  · simp [Chart.renderChart, Chart.enginePattern, initialEngine]
  · simp [Chart.colorCallback, Chart.modifyColor]
  · intro h
    simp [Chart.colorCallback, Chart.modifyColor, h]

/-- Witness for C8: on a concrete chart the render-time pattern is the
default swatch (no explicit colors), and the callback invokes the modifier
with a many-contexts value for a stacked datum and a single context for a
resolving scalar point. -/
theorem color_pipeline_witness :
    ((Chart.renderChart { chartWithCtx with rendered := false }).enginePattern
        = some defaultSwatch)
    ∧ (Chart.colorCallback chartWithCtx "red"
        (.stacked [{ id := "a", value := 0, index := 0 }]) = some "mod-many")
    ∧ (Chart.colorCallback chartWithCtx "red"
        (.point { id := "a", value := 0, index := 0 }) = some "mod-single") :=
  ⟨(color_pipeline chartWithCtx "red" [] { id := "a", value := 0, index := 0 } ctxS1).1,
   (color_pipeline chartWithCtx "red" [{ id := "a", value := 0, index := 0 }]
      { id := "a", value := 0, index := 0 } ctxS1).2.1,
   (color_pipeline chartWithCtx "red" [] { id := "a", value := 0, index := 0 } ctxS1).2.2 rfl⟩

/-! ## Options resolver: `_parseOptions` (chart.ts lines 40-61)

`_parseOptions` deep-merges the user options over a default table with the
generic `deep-extend` dependency. To capture that genericity the options are
modelled as a JSON-like value tree: leaves (strings, booleans, numbers,
function values, arrays) are replaced wholesale by a merge, objects merge
key by key — the documented behavior of `deep-extend` and of the spec,
section 4.2. -/

/-- Function values stored in the options tree, by identity: the two default
closures of `_parseOptions` (chart.ts lines 42 and 54) and arbitrary
user-supplied functions. -/
inductive FuncTag where
  | defaultYFormatter
  | defaultColorModifier
  | userFunc (n : Nat)

/-- Leaf values of the options tree; a deep merge replaces these wholesale
(arrays, modelled for the string arrays that occur in the options, are
cloned, never merged element-wise). -/
inductive JLeaf where
  | str (s : String)
  | jbool (b : Bool)
  | num (n : Int)
  | func (f : FuncTag)
  | strList (elems : List String)
  | jnull

/-- A JSON-like value: a leaf or an object with ordered fields. -/
inductive JVal where
  | leaf (l : JLeaf)
  | obj (fields : List (String × JVal))

mutual

/-- `deep-extend` of one source value over a target value: two objects merge
field by field, any other source value replaces the target. -/
def deepExtendVal : JVal → JVal → JVal
  | JVal.obj t, JVal.obj u => JVal.obj (mergeInto t u)
  | JVal.leaf _, JVal.obj u => JVal.obj u
  | JVal.obj _, JVal.leaf l => JVal.leaf l
  | JVal.leaf _, JVal.leaf l => JVal.leaf l
termination_by _ b => (sizeOf b, 0)

/-- Folds the source fields left to right into the target field list. -/
def mergeInto : List (String × JVal) → List (String × JVal) → List (String × JVal)
  | t, [] => t
  | t, (k, v) :: rest => mergeInto (setKey t k v) rest
termination_by _ u => (sizeOf u, 0)

/-- Writes one source field: an existing key keeps its position and merges
recursively, a new key is appended. -/
def setKey : List (String × JVal) → String → JVal → List (String × JVal)
  | [], k, v => [(k, v)]
  | (k1, v1) :: rest, k, v =>
      if k1 = k then (k1, deepExtendVal v1 v) :: rest
      else (k1, v1) :: setKey rest k v
termination_by t _ v => (sizeOf v, t.length + 1)

end

/-- First field with the given key, as JavaScript property lookup. -/
def lookupField : List (String × JVal) → String → Option JVal
  | [], _ => Option.none
  | (k1, v1) :: rest, k => if k1 = k then some v1 else lookupField rest k

/-- Value at a key path in the options tree (`options.chart.type` is path
`["chart", "type"]`). -/
def getPath : JVal → List String → Option JVal
  | v, [] => some v
  | JVal.obj fields, k :: rest =>
      match lookupField fields k with
      | some v => getPath v rest
      | none => Option.none
  | JVal.leaf _, _ :: _ => Option.none

/-- Number of fields carrying the given key. -/
def keyCount (fields : List (String × JVal)) (k : String) : Nat :=
  (fields.filter (fun p => p.1 = k)).length

/-- Whether a value is a leaf (merged by replacement). -/
def isLeafB : JVal → Bool
  | .leaf _ => true
  | .obj _ => false

/-- The key path resolves in the given field list to the given leaf value,
every traversed key occurring exactly once at its level (the unambiguous
"key present in user options" reading). -/
def PathOnceTo : List (String × JVal) → List String → JVal → Prop
  | _, [], _ => False
  | fields, [k], v =>
      keyCount fields k = 1 ∧ lookupField fields k = some v ∧ isLeafB v = true
  | fields, k :: k2 :: rest, v =>
      keyCount fields k = 1
      ∧ ∃ u2, lookupField fields k = some (JVal.obj u2) ∧ PathOnceTo u2 (k2 :: rest) v

/-- The key path is absent from the field list: at some level its key does
not occur, all earlier levels traversing a unique object field (the
unambiguous "key absent from user options" reading). -/
def PathAbsent : List (String × JVal) → List String → Prop
  | _, [] => False
  | fields, k :: rest =>
      keyCount fields k = 0
      ∨ (keyCount fields k = 1
          ∧ ∃ u2, lookupField fields k = some (JVal.obj u2) ∧ PathAbsent u2 rest)

theorem keyCount_cons (k1 : String) (v1 : JVal) (rest : List (String × JVal)) (k : String) :
    keyCount ((k1, v1) :: rest) k = (if k1 = k then 1 else 0) + keyCount rest k := by
  by_cases h : k1 = k <;> simp [keyCount, List.filter, h, Nat.add_comm]

theorem keyCount_zero_lookup (u : List (String × JVal)) (k : String)
    (h : keyCount u k = 0) : lookupField u k = Option.none := by
  induction u with
  | nil => rfl
  | cons hd tl ih =>
    obtain ⟨k1, v1⟩ := hd
    rw [keyCount_cons] at h
    by_cases hk : k1 = k
    · simp [hk] at h
    · simp [lookupField, hk]
      exact ih (by omega)

theorem lookup_setKey_ne (t : List (String × JVal)) (k q : String) (v : JVal)
    (h : q ≠ k) : lookupField (setKey t k v) q = lookupField t q := by
  induction t with
  | nil => simp [setKey, lookupField, Ne.symm h]
  | cons hd tl ih =>
    obtain ⟨k1, v1⟩ := hd
    by_cases hk : k1 = k
    · subst hk
      simp [setKey, lookupField, Ne.symm h]
    · simp only [setKey, if_neg hk]
      by_cases hq : k1 = q
      · simp [lookupField, hq]
      · simp [lookupField, hq, ih]

theorem lookup_setKey_eq (t : List (String × JVal)) (k : String) (v : JVal) :
    lookupField (setKey t k v) k
      = some (match lookupField t k with
              | some w => deepExtendVal w v
              | none => v) := by
  induction t with
  | nil => simp [setKey, lookupField]
  | cons hd tl ih =>
    obtain ⟨k1, v1⟩ := hd
    by_cases hk : k1 = k
    · simp [setKey, hk, lookupField]
    · simp [setKey, hk, lookupField, ih]

theorem mergeInto_lookup_absent (u : List (String × JVal)) (t : List (String × JVal))
    (k : String) (h : keyCount u k = 0) :
    lookupField (mergeInto t u) k = lookupField t k := by
  induction u generalizing t with
  | nil => simp [mergeInto]
  | cons hd tl ih =>
    obtain ⟨k1, v1⟩ := hd
    rw [keyCount_cons] at h
    by_cases hk : k1 = k
    · simp [hk] at h
    · rw [show mergeInto t ((k1, v1) :: tl) = mergeInto (setKey t k1 v1) tl from by
        rw [mergeInto]]
      rw [ih (setKey t k1 v1) (by omega)]
      exact lookup_setKey_ne t k1 k v1 (fun hh => hk hh.symm)

theorem mergeInto_lookup_once (u : List (String × JVal)) (t : List (String × JVal))
    (k : String) (v : JVal) (hc : keyCount u k = 1) (hl : lookupField u k = some v) :
    lookupField (mergeInto t u) k
      = some (match lookupField t k with
              | some w => deepExtendVal w v
              | none => v) := by
  induction u generalizing t with
  | nil => simp [lookupField] at hl
  | cons hd tl ih =>
    obtain ⟨k1, v1⟩ := hd
    rw [keyCount_cons] at hc
    rw [show mergeInto t ((k1, v1) :: tl) = mergeInto (setKey t k1 v1) tl from by
      rw [mergeInto]]
    by_cases hk : k1 = k
    · subst hk
      rw [show lookupField ((k1, v1) :: tl) k1 = some v1 from by simp [lookupField]] at hl
      injection hl with hl
      subst hl
      have hc2 : keyCount tl k1 = 0 := by
        rw [if_pos rfl] at hc
        omega
      rw [mergeInto_lookup_absent tl (setKey t k1 v1) k1 hc2]
      exact lookup_setKey_eq t k1 v1
    · simp only [lookupField, if_neg hk] at hl
      simp only [if_neg hk] at hc
      rw [ih (setKey t k1 v1) (by omega) hl]
      rw [lookup_setKey_ne t k1 k v1 (fun hh => hk hh.symm)]

theorem deepExtendVal_leaf_right (w : JVal) (v : JVal) (h : isLeafB v = true) :
    deepExtendVal w v = v := by
  cases v with
  | leaf l => cases w <;> simp [deepExtendVal]
  | obj u => simp [isLeafB] at h

theorem deepExtendVal_leaf_left (t : JLeaf) (u : List (String × JVal)) :
    deepExtendVal (JVal.leaf t) (JVal.obj u) = JVal.obj u := by
  simp [deepExtendVal]

theorem getPath_of_PathOnceTo (p : List String) (u : List (String × JVal)) (v : JVal)
    (h : PathOnceTo u p v) : getPath (JVal.obj u) p = some v := by
  induction p generalizing u with
  | nil => exact absurd h (by simp [PathOnceTo])
  | cons k rest ih =>
    cases rest with
    | nil =>
      obtain ⟨h1, h2, h3⟩ := h
      simp [getPath, h2]
    | cons k2 rest2 =>
      obtain ⟨h1, u2, h2, h3⟩ := h
      simp only [getPath, h2]
      exact ih u2 h3

theorem getPath_of_PathAbsent (p : List String) (u : List (String × JVal))
    (h : PathAbsent u p) : getPath (JVal.obj u) p = Option.none := by
  induction p generalizing u with
  | nil => exact absurd h (by simp [PathAbsent])
  | cons k rest ih =>
    rcases h with h | ⟨h1, u2, h2, h3⟩
    · simp [getPath, keyCount_zero_lookup u k h]
    · simp only [getPath, h2]
      exact ih u2 h3

theorem getPath_deepExtend_once (p : List String) (t : JVal) (u : List (String × JVal))
    (v : JVal) (h : PathOnceTo u p v) :
    getPath (deepExtendVal t (JVal.obj u)) p = some v := by
  induction p generalizing t u with
  | nil => exact absurd h (by simp [PathOnceTo])
  | cons k rest ih =>
    cases t with
    | leaf l =>
      rw [deepExtendVal_leaf_left]
      exact getPath_of_PathOnceTo _ _ _ h
    | obj tf =>
      rw [show deepExtendVal (JVal.obj tf) (JVal.obj u) = JVal.obj (mergeInto tf u) from by
        rw [deepExtendVal]]
      cases rest with
      | nil =>
        obtain ⟨h1, h2, h3⟩ := h
        rw [show getPath (JVal.obj (mergeInto tf u)) [k]
            = match lookupField (mergeInto tf u) k with
              | some w => getPath w []
              | none => Option.none from rfl]
        rw [mergeInto_lookup_once u tf k v h1 h2]
        cases hw : lookupField tf k with
        | none => simp [getPath]
        | some w => simp [getPath, deepExtendVal_leaf_right w v h3]
      | cons k2 rest2 =>
        obtain ⟨h1, u2, h2, h3⟩ := h
        rw [show getPath (JVal.obj (mergeInto tf u)) (k :: k2 :: rest2)
            = match lookupField (mergeInto tf u) k with
              | some w => getPath w (k2 :: rest2)
              | none => Option.none from rfl]
        rw [mergeInto_lookup_once u tf k (JVal.obj u2) h1 h2]
        cases hw : lookupField tf k with
        | none =>
          simp only
          exact getPath_of_PathOnceTo _ _ _ h3
        | some w =>
          simp only
          exact ih w u2 h3

theorem getPath_deepExtend_absent (p : List String) (tf u : List (String × JVal))
    (h : PathAbsent u p) :
    getPath (deepExtendVal (JVal.obj tf) (JVal.obj u)) p = getPath (JVal.obj tf) p := by
  induction p generalizing tf u with
  | nil => exact absurd h (by simp [PathAbsent])
  | cons k rest ih =>
    rw [show deepExtendVal (JVal.obj tf) (JVal.obj u) = JVal.obj (mergeInto tf u) from by
      rw [deepExtendVal]]
    rcases h with h | ⟨h1, u2, h2, h3⟩
    · rw [show getPath (JVal.obj (mergeInto tf u)) (k :: rest)
          = match lookupField (mergeInto tf u) k with
            | some w => getPath w rest
            | none => Option.none from rfl]
      rw [mergeInto_lookup_absent u tf k h]
      rfl
    · rw [show getPath (JVal.obj (mergeInto tf u)) (k :: rest)
          = match lookupField (mergeInto tf u) k with
            | some w => getPath w rest
            | none => Option.none from rfl]
      rw [mergeInto_lookup_once u tf k (JVal.obj u2) h1 h2]
      cases hw : lookupField tf k with
      | none =>
        simp only [getPath, hw]
        exact getPath_of_PathAbsent _ _ h3
      | some w =>
        simp only [getPath, hw]
        cases w with
        | leaf l =>
          rw [deepExtendVal_leaf_left]
          rw [getPath_of_PathAbsent _ _ h3]
          cases rest with
          | nil => exact absurd h3 (by simp [PathAbsent])
          | cons k2 rest2 => rfl
        | obj w2 =>
          exact ih w2 u2 h3

/-- chart.ts line 42: the default y-axis value formatter `(value) => value`. -/
def defaultFormatterFn : JVal → JVal := fun value => value

/-- chart.ts line 54: the default color modifier
`(currentColor, dataContext) => currentColor`. -/
def defaultColorModifierFn (currentColor : String) (_dataContext : JVal) : String :=
  currentColor

/-- Modelled from the spec, sections 4.2 and 4.4:
`Config.defaultTimeSeriesFormats` (config.ts is outside src/), the default
granularity → date-format-pattern table referenced by the parse defaults. -/
def defaultTimeSeriesFormats : JVal :=
  JVal.obj [
    ("minute", JVal.leaf (JLeaf.str "HH:mm")),
    ("hour", JVal.leaf (JLeaf.str "HH:00")),
    ("day", JVal.leaf (JLeaf.str "DD/MM")),
    ("month", JVal.leaf (JLeaf.str "MMM YY")),
    ("year", JVal.leaf (JLeaf.str "YYYY"))]

/-- chart.ts lines 43-56: the `defaultOptions` literal of `_parseOptions`,
in source order. -/
def defaultOptionsFields : List (String × JVal) :=
  [("transitionOnReload", JVal.leaf (JLeaf.jbool true)),
   ("intervals", JVal.obj [("formats", defaultTimeSeriesFormats)]),
   ("fields", JVal.obj []),
   ("chart", JVal.obj [
      ("type", JVal.leaf (JLeaf.str "bar")),
      ("yAxis", JVal.obj [("valueFormatter", JVal.leaf (JLeaf.func FuncTag.defaultYFormatter))]),
      ("colorModifier", JVal.leaf (JLeaf.func FuncTag.defaultColorModifier))])]

/-- See `defaultOptionsFields`. -/
def defaultOptions : JVal := JVal.obj defaultOptionsFields

/-- chart.ts lines 40-61: `_parseOptions` is
`deepExtend({}, defaultOptions, chartOptions)` — the defaults merged into a
fresh object, then the user options merged over them. -/
def parseOptions (chartOptions : List (String × JVal)) : JVal :=
  deepExtendVal (deepExtendVal (JVal.obj []) defaultOptions) (JVal.obj chartOptions)

/-- C6: the options resolver deep-merges the user options over the fixed
default table — `chart.type` defaults to `bar`, the y-axis value formatter to
the identity function, `transitionOnReload` to `true`, the per-field map to
the empty object and `intervals.formats` to the default time-series format
table; a leaf key path present in the user options overrides, an absent one
keeps the default. -/
theorem parseOptions_deep_merge (u : List (String × JVal)) :
    (∀ p v, PathOnceTo u p v → getPath (parseOptions u) p = some v)
    ∧ (PathAbsent u ["chart", "type"] →
        getPath (parseOptions u) ["chart", "type"]
          = some (JVal.leaf (JLeaf.str "bar")))
    ∧ (PathAbsent u ["chart", "yAxis", "valueFormatter"] →
        getPath (parseOptions u) ["chart", "yAxis", "valueFormatter"]
          = some (JVal.leaf (JLeaf.func FuncTag.defaultYFormatter)))
    ∧ (∀ v, defaultFormatterFn v = v)
    ∧ (PathAbsent u ["transitionOnReload"] →
        getPath (parseOptions u) ["transitionOnReload"]
          = some (JVal.leaf (JLeaf.jbool true)))
    ∧ (PathAbsent u ["fields"] →
        getPath (parseOptions u) ["fields"] = some (JVal.obj []))
    ∧ (PathAbsent u ["intervals", "formats"] →
        getPath (parseOptions u) ["intervals", "formats"]
          = some defaultTimeSeriesFormats) := by
  have hrw : parseOptions u = deepExtendVal (JVal.obj defaultOptionsFields) (JVal.obj u) := by
    have hbase : deepExtendVal (JVal.obj []) defaultOptions = JVal.obj defaultOptionsFields := by
      simp [defaultOptions, defaultOptionsFields, defaultTimeSeriesFormats,
        deepExtendVal, mergeInto, setKey]
    rw [parseOptions, hbase]
  refine ⟨?_, ?_, ?_, ?_, ?_, ?_, ?_⟩
  · intro p v h
    exact getPath_deepExtend_once p _ u v h
  · intro habs
    rw [hrw, getPath_deepExtend_absent _ _ _ habs]
    rfl
  · intro habs
    rw [hrw, getPath_deepExtend_absent _ _ _ habs]
    rfl
  · intro v
    rfl
  · intro habs
    rw [hrw, getPath_deepExtend_absent _ _ _ habs]
    rfl
  · intro habs
    rw [hrw, getPath_deepExtend_absent _ _ _ habs]
    rfl
  · intro habs
    rw [hrw, getPath_deepExtend_absent _ _ _ habs]
    rfl

/-- A concrete user options object: a title and an overridden chart type. -/
def userOptsW : List (String × JVal) :=
  [("title", JVal.leaf (JLeaf.str "Sales")),
   ("chart", JVal.obj [("type", JVal.leaf (JLeaf.str "line"))])]

/-- Witness for C6: the user-supplied `chart.type` wins, untouched keys keep
their defaults — including a default nested beside an overridden sibling. -/
theorem parseOptions_deep_merge_witness :
    (getPath (parseOptions userOptsW) ["chart", "type"]
        = some (JVal.leaf (JLeaf.str "line")))
    ∧ (getPath (parseOptions userOptsW) ["transitionOnReload"]
        = some (JVal.leaf (JLeaf.jbool true)))
    ∧ (getPath (parseOptions userOptsW) ["chart", "yAxis", "valueFormatter"]
        = some (JVal.leaf (JLeaf.func FuncTag.defaultYFormatter)))
    ∧ (getPath (parseOptions userOptsW) ["fields"] = some (JVal.obj [])) := by
  refine ⟨?_, ?_, ?_, ?_⟩
  · refine (parseOptions_deep_merge userOptsW).1 ["chart", "type"] _ ?_
    refine ⟨by decide, [("type", JVal.leaf (JLeaf.str "line"))], rfl, by decide, rfl, rfl⟩
  · exact (parseOptions_deep_merge userOptsW).2.2.2.2.1 (Or.inl (by decide))
  · refine (parseOptions_deep_merge userOptsW).2.2.1 ?_
    exact Or.inr ⟨by decide, [("type", JVal.leaf (JLeaf.str "line"))], rfl, Or.inl (by decide)⟩
  · exact (parseOptions_deep_merge userOptsW).2.2.2.2.2.1 (Or.inl (by decide))

/-- C9: `Connect.push` sends a built batch via `pushBatch` when given a
collection name and an array of events; calls the client's single-event `push`
when given a collection name and a non-array event; and forwards a non-string
first argument unchanged to `pushBatch`. -/
theorem push_dispatch (name : String) (events : List PVal) (ev v : PVal) :
    (Connect.push (.str name) (.arr events)
        = .pushBatch (.obj [(name, .arr events)]))
    ∧ (pIsArray ev = false →
        Connect.push (.str name) ev = .push (.str name) ev)
    ∧ (pIsString v = false →
        Connect.push v ev = .pushBatch v) := by
  refine ⟨rfl, ?_, ?_⟩
  · intro h
    simp [Connect.push, pIsString, h]
  · intro h
    cases v <;> simp_all [Connect.push, pIsString]

/-- Witness for C9: concrete evaluations of all three dispatch branches. -/
theorem push_dispatch_witness :
    (Connect.push (.str "purchases") (.arr [.num 1, .num 2])
        = .pushBatch (.obj [("purchases", .arr [.num 1, .num 2])]))
    ∧ (Connect.push (.str "purchases") (.obj [("price", .num 5)])
        = .push (.str "purchases") (.obj [("price", .num 5)]))
    ∧ (Connect.push (.obj [("purchases", .arr [])]) .undef
        = .pushBatch (.obj [("purchases", .arr [])])) :=
  ⟨(push_dispatch "purchases" [.num 1, .num 2] .undef .undef).1,
   (push_dispatch "purchases" [] (.obj [("price", .num 5)]) .undef).2.1 rfl,
   (push_dispatch "purchases" [] .undef (.obj [("purchases", .arr [])])).2.2 rfl⟩

/-- C10: the resolved configuration uses the supplied `baseUrl` when it is
truthy and `https://api.getconnect.io` otherwise, carries `projectId` and
`apiKey` through unchanged, and holds no other fields of the input. -/
theorem getConfig_spec (config : List (String × String)) :
    (∀ s, config.lookup "baseUrl" = some s → s ≠ "" →
        (getConfig config).lookup "baseUrl" = some (some s))
    ∧ (config.lookup "baseUrl" = none →
        (getConfig config).lookup "baseUrl" = some (some "https://api.getconnect.io"))
    ∧ (config.lookup "baseUrl" = some "" →
        (getConfig config).lookup "baseUrl" = some (some "https://api.getconnect.io"))
    ∧ ((getConfig config).lookup "projectId" = some (config.lookup "projectId"))
    ∧ ((getConfig config).lookup "apiKey" = some (config.lookup "apiKey"))
    ∧ (∀ k, k ≠ "baseUrl" → k ≠ "projectId" → k ≠ "apiKey" →
        (getConfig config).lookup k = none) := by
  refine ⟨?_, ?_, ?_, rfl, rfl, ?_⟩
  · intro s hs hne
    simp [getConfig, jsOrStr, hs, hne]
  · intro h
    simp [getConfig, jsOrStr, h]
  · intro h
    simp [getConfig, jsOrStr, h]
  · intro k h1 h2 h3
    have b1 : (k == "baseUrl") = false := by simp [h1]
    have b2 : (k == "projectId") = false := by simp [h2]
    have b3 : (k == "apiKey") = false := by simp [h3]
    simp [getConfig, List.lookup, b1, b2, b3]

/-- Witness for C10: a configuration with an extra field and no baseUrl gets
the default baseUrl, keeps projectId and apiKey, and drops the extra field. -/
theorem getConfig_spec_witness :
    ((getConfig [("projectId", "p1"), ("apiKey", "k1"), ("extra", "x")]).lookup "baseUrl"
        = some (some "https://api.getconnect.io"))
    ∧ ((getConfig [("projectId", "p1"), ("apiKey", "k1"), ("extra", "x")]).lookup "projectId"
        = some (some "p1"))
    ∧ ((getConfig [("projectId", "p1"), ("apiKey", "k1"), ("extra", "x")]).lookup "extra"
        = none)
    ∧ ((getConfig [("baseUrl", "https://example.org")]).lookup "baseUrl"
        = some (some "https://example.org")) :=
  ⟨(getConfig_spec [("projectId", "p1"), ("apiKey", "k1"), ("extra", "x")]).2.1 rfl,
   (getConfig_spec [("projectId", "p1"), ("apiKey", "k1"), ("extra", "x")]).2.2.2.1,
   (getConfig_spec [("projectId", "p1"), ("apiKey", "k1"), ("extra", "x")]).2.2.2.2.2
     "extra" (by decide) (by decide) (by decide),
   (getConfig_spec [("baseUrl", "https://example.org")]).1
     "https://example.org" rfl (by decide)⟩

end ConnectJs
